import Mathlib

/-!
Verification of the Triangulon holonomic-chassis kinematics module
(`src/python/triangula/chassis.py`): a 2D vector type `Vector2`, a wheel
descriptor `OmniWheel`, and a chassis `HoloChassis` with a wheel-speed
computation.  Python floats are modelled as real numbers, `None`-able
parameters as `Option ℝ`, raised exceptions as `Except String`, and a
function body that falls off its end (returning Python `None`) as `none`
of an `Option` result type.
-/

noncomputable section

namespace Triangula

/-- Embedding of the `Vector2` class: a two dimensional vector with real
components `x` and `y`. -/
structure Vector2 where
  x : ℝ
  y : ℝ

namespace Vector2

/-- Embedding of `Vector2.__copy__` / `Vector2.copy`:
`return self.__class__(self.x, self.y)`. -/
def copy (v : Vector2) : Vector2 := ⟨v.x, v.y⟩

/-- Embedding of `Vector2.dot` (for a `Vector2` argument):
`self.x * other.x + self.y * other.y`. -/
def dot (a b : Vector2) : ℝ := a.x * b.x + a.y * b.y

/-- Embedding of `Vector2.cross`: `Vector2(self.y, -self.x)`. -/
def cross (v : Vector2) : Vector2 := ⟨v.y, -v.x⟩

/-- Embedding of `Vector2.__abs__` / `Vector2.magnitude`:
`sqrt(self.x ** 2 + self.y ** 2)`. -/
def magnitude (v : Vector2) : ℝ := Real.sqrt (v.x ^ 2 + v.y ^ 2)

/-- Embedding of `Vector2.magnitude_squared`: `self.x ** 2 + self.y ** 2`. -/
def magnitude_squared (v : Vector2) : ℝ := v.x ^ 2 + v.y ^ 2

/-- Embedding of `Vector2.normalized`: `d = self.magnitude()`; when `d` is
truthy (non-zero) return `Vector2(self.x / d, self.y / d)`, else return
`self.copy()`. -/
def normalized (v : Vector2) : Vector2 :=
  if v.magnitude ≠ 0 then ⟨v.x / v.magnitude, v.y / v.magnitude⟩ else v.copy

/-- Embedding of `Vector2.__add__` (for a `Vector2` argument):
`Vector2(self.x + other.x, self.y + other.y)`. -/
def add (a b : Vector2) : Vector2 := ⟨a.x + b.x, a.y + b.y⟩

/-- Embedding of `Vector2.__sub__` (for a `Vector2` argument):
`Vector2(self.x - other.x, self.y - other.y)`. -/
def sub (a b : Vector2) : Vector2 := ⟨a.x - b.x, a.y - b.y⟩

/-- Embedding of `Vector2.__neg__`: `Vector2(-self.x, -self.y)`. -/
def neg (v : Vector2) : Vector2 := ⟨-v.x, -v.y⟩

/-- Embedding of `Vector2.__mul__` / `Vector2.__rmul__` (scalar product):
`Vector2(self.x * other, self.y * other)`. -/
def mul (v : Vector2) (k : ℝ) : Vector2 := ⟨v.x * k, v.y * k⟩

/-- Embedding of `Vector2.__iadd__`, the in-place accumulate `+=`:
`self.x += other.x; self.y += other.y; return self`.  The result is the
state of `self` after the call (which is also the returned object). -/
def iadd (v other : Vector2) : Vector2 := ⟨v.x + other.x, v.y + other.y⟩

/-- Embedding of `Vector2.__imul__`, the in-place scalar multiply `*=`:
`self.x *= other; self.y *= other; return self`.  The result is the state
of `self` after the call (which is also the returned object). -/
def imul (v : Vector2) (k : ℝ) : Vector2 := ⟨v.x * k, v.y * k⟩

/-- Embedding of `Vector2.__getitem__`: `(self.x, self.y)[key]`. -/
def getitem (v : Vector2) (key : Fin 2) : ℝ :=
  if key = 0 then v.x else v.y

/-- Embedding of `Vector2.__setitem__`:
`l = [self.x, self.y]; l[key] = value; self.x, self.y = l`.  The result is
the state of `self` after the call. -/
def setitem (v : Vector2) (key : Fin 2) (value : ℝ) : Vector2 :=
  if key = 0 then ⟨value, v.y⟩ else ⟨v.x, value⟩

/-- Embedding of `Vector2.__truediv__` (scalar division):
`Vector2(operator.truediv(self.x, other), operator.truediv(self.y, other))`.
Python raises `ZeroDivisionError` when the divisor is zero, which the
embedding returns as an `Except.error`. -/
def truediv (v : Vector2) (k : ℝ) : Except String Vector2 :=
  if k = 0 then Except.error "ZeroDivisionError"
  else Except.ok ⟨v.x / k, v.y / k⟩

/-- Embedding of `Vector2.__div__` (scalar division,
`operator.div`): on floats `operator.div` is true division, so the
behaviour coincides with `__truediv__`, zero-divisor error included. -/
def div (v : Vector2) (k : ℝ) : Except String Vector2 :=
  if k = 0 then Except.error "ZeroDivisionError"
  else Except.ok ⟨v.x / k, v.y / k⟩

end Vector2

/-- One method call on a `Vector2` receiver `self`, with its arguments:
one constructor per method of the Python class (`eq` is `__eq__`, `ne` is
`__ne__`, `abs` is `__abs__`/`magnitude`, `pos` is `__pos__`, the `r`-forms
are the reflected operators, and so on). -/
inductive VecOp where
  | copy
  | eq (other : Vector2)
  | ne (other : Vector2)
  | nonzero
  | len
  | dot (other : Vector2)
  | cross
  | abs
  | magnitude_squared
  | normalized
  | add (other : Vector2)
  | radd (other : Vector2)
  | iadd (other : Vector2)
  | getitem (key : Fin 2)
  | setitem (key : Fin 2) (value : ℝ)
  | sub (other : Vector2)
  | rsub (other : Vector2)
  | mul (k : ℝ)
  | rmul (k : ℝ)
  | imul (k : ℝ)
  | div (k : ℝ)
  | rdiv (k : ℝ)
  | floordiv (k : ℝ)
  | rfloordiv (k : ℝ)
  | truediv (k : ℝ)
  | rtruediv (k : ℝ)
  | neg
  | pos

/-- Whether the method is `__iadd__`, the in-place accumulate `+=`. -/
def VecOp.isIadd : VecOp → Bool
  | .iadd _ => true
  | _ => false

/-- Whether the method is one of the three that assign to `self`'s fields:
`__iadd__` (`+=`), `__imul__` (`*=`) and `__setitem__` (indexed
assignment). -/
def VecOp.isInplace : VecOp → Bool
  | .iadd _ => true
  | .imul _ => true
  | .setitem _ _ => true
  | _ => false

/-- The state of `self`'s fields after a method call, read off each method
body of the Python class: `__iadd__` does `self.x += other.x; self.y +=
other.y`, `__imul__` does `self.x *= other; self.y *= other`, `__setitem__`
assigns one component, and every other method only reads `self` and
constructs fresh objects, so it leaves `self` as it was. -/
def Vector2.selfAfter (v : Vector2) : VecOp → Vector2
  | .iadd other => v.iadd other
  | .imul k => v.imul k
  | .setitem key value => v.setitem key value
  | .copy => v
  | .eq _ => v
  | .ne _ => v
  | .nonzero => v
  | .len => v
  | .dot _ => v
  | .cross => v
  | .abs => v
  | .magnitude_squared => v
  | .normalized => v
  | .add _ => v
  | .radd _ => v
  | .getitem _ => v
  | .sub _ => v
  | .rsub _ => v
  | .mul _ => v
  | .rmul _ => v
  | .div _ => v
  | .rdiv _ => v
  | .floordiv _ => v
  | .rfloordiv _ => v
  | .truediv _ => v
  | .rtruediv _ => v
  | .neg => v
  | .pos => v

/-- Embedding of an `OmniWheel` object after construction: position `(x, y)`
and drive vector `(dx, dy)`, all in millimetres. -/
structure OmniWheel where
  x : ℝ
  y : ℝ
  dx : ℝ
  dy : ℝ

/-- Embedding of Python's `math.radians`: degrees times `π / 180`. -/
def radians (degrees : ℝ) : ℝ := degrees * (Real.pi / 180)

/-- Embedding of `HoloChassis.OmniWheel.__init__`.  `None`-able parameters
are `Option ℝ`.  The body stores `x` and `y`, then: when `angle is None and
radius is None and dx is not None and dy is not None` it stores `dx, dy`
directly; when `angle is not None and radius is not None and dx is None and
dy is None` it computes `angle_rads = radians(angle)`,
`circumference = 2 * pi * radius` and stores
`(sin(angle_rads) * circumference, cos(angle_rads) * circumference)`;
otherwise it raises
`ValueError('Must specify exactly one of angle and radius or dx,dy vector')`. -/
def OmniWheel.init (x y : ℝ) (angle radius dx dy : Option ℝ) :
    Except String OmniWheel :=
  match angle, radius, dx, dy with
  | none, none, some dx, some dy => Except.ok ⟨x, y, dx, dy⟩
  | some angle, some radius, none, none =>
    let angle_rads := radians angle
    let circumference := 2 * Real.pi * radius
    Except.ok ⟨x, y, Real.sin angle_rads * circumference,
               Real.cos angle_rads * circumference⟩
  | _, _, _, _ =>
    Except.error "Must specify exactly one of angle and radius or dx,dy vector"

/-- Embedding of a `HoloChassis` object: the ordered sequence of wheels
stored by `HoloChassis.__init__`. -/
structure HoloChassis where
  wheels : List OmniWheel

/-- Embedding of `HoloChassis.get_wheel_speeds` exactly as written in the
source: although its docstring promises a sequence of per-wheel speeds, its
body only defines a local helper `velocity_at(x, y) = Vector2(x, y)` and
then falls off the end, so the call returns Python `None` for every input.
The return is modelled as `Option (List ℝ)`, with `none` for `None`. -/
def HoloChassis.get_wheel_speeds (c : HoloChassis)
    (dx dy rotation x_origin y_origin : ℝ) : Option (List ℝ) :=
  let velocity_at : ℝ → ℝ → Vector2 := fun x y => Vector2.mk x y
  none

/-!
Theorems for the claims.  Claims about `get_wheel_speeds`'s output are
settled against the body as written (which returns `None`); claims about
wheel construction and the vector algebra are settled against the
corresponding embedded methods.
-/

/-- Claim C10: for every chassis (any number of wheels) and all inputs
`dx, dy, rotation, x_origin, y_origin`, `get_wheel_speeds` as written
returns no value (Python `None`) rather than a sequence of per-wheel
speeds: its body only defines the local helper `velocity_at` and performs
no projection, accumulation, or return. -/
theorem C10_get_wheel_speeds_returns_none (c : HoloChassis)
    (dx dy rotation x_origin y_origin : ℝ) :
    c.get_wheel_speeds dx dy rotation x_origin y_origin = none := rfl

/-- Claim C1 (code evaluation at the failing input): for the one-wheel
chassis whose wheel sits at the origin with drive vector `(0, 100)`,
commanding the translational velocity `(0, 100)` — parallel to the drive
vector, with the drive vector's magnitude — and zero rotation, the claim
(and the function's own docstring) promise the speed sequence `[1.0]`, but
the code returns `None`: the body never computes a projection. -/
theorem C1_code_returns_none_not_speeds :
    HoloChassis.get_wheel_speeds ⟨[⟨0, 0, 0, 100⟩]⟩ 0 100 0 0 0 = none ∧
    HoloChassis.get_wheel_speeds ⟨[⟨0, 0, 0, 100⟩]⟩ 0 100 0 0 0 ≠ some [1] :=
  ⟨rfl, fun h => Option.noConfusion h⟩

/-- Claim C2 (code evaluation at the failing input): for the chassis with
zero wheels, the claim promises the empty sequence for any input, but the
code returns `None`, which is not a sequence at all. -/
theorem C2_empty_chassis_returns_none :
    HoloChassis.get_wheel_speeds ⟨[]⟩ 1 2 3 0 0 = none ∧
    HoloChassis.get_wheel_speeds ⟨[]⟩ 1 2 3 0 0 ≠ some [] :=
  ⟨rfl, fun h => Option.noConfusion h⟩

/-- Claim C3 (code evaluation at the failing input): on a one-wheel chassis
both `get_wheel_speeds(2, 0, 0)` and `get_wheel_speeds(1, 0, 0)` return
`None`, so there are no numeric sequences for the claimed componentwise
linearity relation to compare (in Python, `2 * None` is a `TypeError`). -/
theorem C3_no_sequences_to_compare :
    HoloChassis.get_wheel_speeds ⟨[⟨0, 0, 0, 100⟩]⟩ 2 0 0 0 0 = none ∧
    HoloChassis.get_wheel_speeds ⟨[⟨0, 0, 0, 100⟩]⟩ 1 0 0 0 0 = none :=
  ⟨rfl, rfl⟩

/-- Claim C4 (counterexample): constructing a wheel with `dx = 0, dy = 0`
(and `angle`, `radius` left `None`) succeeds, yielding a wheel whose drive
vector is the zero vector — construction does not fail as the claim
states. -/
theorem C4_zero_drive_vector_accepted :
    OmniWheel.init 0 0 none none (some 0) (some 0) =
      Except.ok ⟨0, 0, 0, 0⟩ := rfl

/-- Claim C4 (amended): `OmniWheel` construction performs no non-zero check
on the drive vector: `dx = 0, dy = 0` is stored as given, and `radius = 0`
with any angle produces the zero drive vector, both without error; the only
construction-time error is the parameterization-combination check. -/
theorem C4_amended_no_zero_check (x y angle : ℝ) :
    OmniWheel.init x y none none (some 0) (some 0) =
      Except.ok ⟨x, y, 0, 0⟩ ∧
    OmniWheel.init x y (some angle) (some 0) none none =
      Except.ok ⟨x, y, Real.sin (radians angle) * (2 * Real.pi * 0),
                 Real.cos (radians angle) * (2 * Real.pi * 0)⟩ ∧
    Real.sin (radians angle) * (2 * Real.pi * 0) = 0 ∧
    Real.cos (radians angle) * (2 * Real.pi * 0) = 0 :=
  ⟨rfl, rfl, by ring, by ring⟩

/-- Claim C5 (counterexample): with `angle = 30`, `radius = None`,
`dx = 1`, `dy = 1`, exactly one parameterization — the `(dx, dy)` pair —
is fully given, so the claim says construction succeeds; the code raises
`ValueError`, because its success branches also require the other
parameterization's arguments to be entirely absent. -/
theorem C5_one_pair_full_still_raises :
    OmniWheel.init 0 0 (some 30) none (some 1) (some 1) =
      Except.error "Must specify exactly one of angle and radius or dx,dy vector" :=
  rfl

/-- Claim C5 (amended): construction succeeds exactly when one
parameterization is fully given and the other is entirely absent —
`dx, dy` both given with `angle` and `radius` both `None`, or `angle,
radius` both given with `dx` and `dy` both `None`; every other
combination (both pairs, neither pair, or a fully given pair alongside a
partially given one) raises. -/
theorem C5_success_iff (x y : ℝ) (angle radius dx dy : Option ℝ) :
    (∃ w, OmniWheel.init x y angle radius dx dy = Except.ok w) ↔
      ((angle = none ∧ radius = none ∧ dx.isSome = true ∧ dy.isSome = true) ∨
       (angle.isSome = true ∧ radius.isSome = true ∧ dx = none ∧ dy = none)) := by
  cases angle <;> cases radius <;> cases dx <;> cases dy <;>
    simp [OmniWheel.init]

/-- Claim C6: a wheel constructed from `(angle, radius)` gets the drive
vector `(sin(radians angle) · 2π·radius, cos(radians angle) · 2π·radius)`;
in particular `angle = 0` yields `(0, 2π·radius)` and `angle = 90` yields
`(2π·radius, 0)`. -/
theorem C6_angle_radius_drive_vector (x y angle radius : ℝ) :
    OmniWheel.init x y (some angle) (some radius) none none =
      Except.ok ⟨x, y, Real.sin (radians angle) * (2 * Real.pi * radius),
                 Real.cos (radians angle) * (2 * Real.pi * radius)⟩ ∧
    (∃ w, OmniWheel.init x y (some 0) (some radius) none none =
        Except.ok w ∧ w.dx = 0 ∧ w.dy = 2 * Real.pi * radius) ∧
    (∃ w, OmniWheel.init x y (some 90) (some radius) none none =
        Except.ok w ∧ w.dx = 2 * Real.pi * radius ∧ w.dy = 0) := by
  refine ⟨rfl, ⟨_, rfl, ?_, ?_⟩, ⟨_, rfl, ?_, ?_⟩⟩
  · simp [radians]
  · simp [radians]
  · rw [show radians 90 = Real.pi / 2 by unfold radians; ring]
    simp [Real.sin_pi_div_two]
  · rw [show radians 90 = Real.pi / 2 by unfold radians; ring]
    simp [Real.cos_pi_div_two]

/-- Claim C7: `normalized` is total — the zero vector is returned unchanged
with no division performed, and a non-zero vector has non-zero magnitude
(so the division branch is only reached there) and is divided componentwise
by its magnitude. -/
theorem C7_normalized_total (v : Vector2) :
    (v = ⟨0, 0⟩ → v.normalized = v) ∧
    (v ≠ ⟨0, 0⟩ → v.magnitude ≠ 0 ∧
      v.normalized = ⟨v.x / v.magnitude, v.y / v.magnitude⟩) := by
  constructor
  · rintro rfl
    simp [Vector2.normalized, Vector2.magnitude, Vector2.copy]
  · intro hv
    obtain ⟨a, b⟩ := v
    have hxy : a ≠ 0 ∨ b ≠ 0 := by
      by_contra h
      push_neg at h
      exact hv (by rw [h.1, h.2])
    have hpos : 0 < a ^ 2 + b ^ 2 := by
      rcases hxy with h | h
      · exact add_pos_of_pos_of_nonneg (pow_two_pos_of_ne_zero h) (sq_nonneg _)
      · exact add_pos_of_nonneg_of_pos (sq_nonneg _) (pow_two_pos_of_ne_zero h)
    have hm : Vector2.magnitude ⟨a, b⟩ ≠ 0 := (Real.sqrt_pos.mpr hpos).ne'
    exact ⟨hm, by simp [Vector2.normalized, hm]⟩

/-- Claim C7 (witness): the theorem applied to the zero vector and to
`(3, 4)`. -/
theorem C7_normalized_total_witness :
    (Vector2.mk 0 0).normalized = ⟨0, 0⟩ ∧
    (Vector2.mk 3 4).magnitude ≠ 0 ∧
    (Vector2.mk 3 4).normalized =
      ⟨3 / (Vector2.mk 3 4).magnitude, 4 / (Vector2.mk 3 4).magnitude⟩ := by
  have h34 : (Vector2.mk 3 4) ≠ ⟨0, 0⟩ := by
    simp [Vector2.mk.injEq]
  exact ⟨(C7_normalized_total ⟨0, 0⟩).1 rfl,
    ((C7_normalized_total ⟨3, 4⟩).2 h34).1,
    ((C7_normalized_total ⟨3, 4⟩).2 h34).2⟩

/-- Claim C8: scalar division raises `ZeroDivisionError` exactly when the
divisor is zero; for a non-zero divisor it returns the componentwise
quotient; `__div__` and `__truediv__` agree. -/
theorem C8_scalar_division (v : Vector2) (k : ℝ) :
    (v.truediv k = Except.error "ZeroDivisionError" ↔ k = 0) ∧
    (k ≠ 0 → v.truediv k = Except.ok ⟨v.x / k, v.y / k⟩) ∧
    v.div k = v.truediv k := by
  refine ⟨?_, ?_, rfl⟩
  · by_cases h : k = 0 <;> simp [Vector2.truediv, h]
  · intro h
    simp [Vector2.truediv, h]

/-- Claim C8 (witness): the theorem applied at divisors `2` and `0`. -/
theorem C8_scalar_division_witness :
    Vector2.truediv ⟨6, 8⟩ 2 = Except.ok ⟨6 / 2, 8 / 2⟩ ∧
    (Vector2.truediv ⟨6, 8⟩ 0 = Except.error "ZeroDivisionError" ↔
      (0 : ℝ) = 0) :=
  ⟨(C8_scalar_division ⟨6, 8⟩ 2).2.1 (by norm_num),
   (C8_scalar_division ⟨6, 8⟩ 0).1⟩

/-- Claim C9 (counterexample): `__imul__` (`*=`) is not the in-place
accumulate `+=`, yet it does not leave its receiver unchanged: after
`v *= 2` with `v = (1, 2)`, `self`'s components are `(2, 4)`. -/
theorem C9_imul_mutates :
    VecOp.isIadd (VecOp.imul 2) = false ∧
    Vector2.selfAfter ⟨1, 2⟩ (VecOp.imul 2) ≠ (⟨1, 2⟩ : Vector2) := by
  refine ⟨rfl, ?_⟩
  simp only [Vector2.selfAfter, Vector2.imul, ne_eq, Vector2.mk.injEq, not_and]
  norm_num

/-- Claim C9 (amended): every `Vector2` operation other than the three
in-place ones — `__iadd__` (`+=`), `__imul__` (`*=`) and `__setitem__`
(indexed assignment) — returns a new vector and leaves the components of
its receiver unchanged. -/
theorem C9_amended_noninplace_preserves_self (v : Vector2) (op : VecOp)
    (h : op.isInplace = false) : v.selfAfter op = v := by
  cases op <;> simp_all [VecOp.isInplace, Vector2.selfAfter]

/-- Claim C9 (witness): the theorem applied to negation at `(1, 2)`. -/
theorem C9_amended_witness :
    Vector2.selfAfter ⟨1, 2⟩ VecOp.neg = (⟨1, 2⟩ : Vector2) :=
  C9_amended_noninplace_preserves_self ⟨1, 2⟩ VecOp.neg rfl

end Triangula
